import Mathlib

/-!
Shallow embedding of the pptx-generation pipeline:
the orchestrator graph, the retry/fallback wrapper, the stage-level
retry loops, the code sanitizer and the three-tier execution cascade,
together with theorems about the specified properties.

Strings are modelled as `List Char` internally (Python text), with
`String` wrappers at the interfaces.  The Python operations `str.find`, `in`,
`str.replace` and `str.lower` are embedded with their Python semantics.
-/

namespace PPTX

/-- Single-quote character (U+0027), used when assembling embedded
Python source texts. -/
def sq : Char := Char.ofNat 39

/-- The string consisting of one single-quote character. -/
def sqS : String := String.mk [sq]

/-- Three single quotes, a Python docstring delimiter. -/
def tq : String := String.mk [sq, sq, sq]

/-- Number of occurrences of a character in a character list. -/
def countC (a : Char) : List Char → Nat
  | [] => 0
  | c :: cs => (if c = a then 1 else 0) + countC a cs

/-- Tail-recursive form of `countC`, used to evaluate counts on the
long embedded texts. -/
def countT (a : Char) (l : List Char) : Nat :=
  l.foldl (fun n c => if c = a then n + 1 else n) 0

/-- Substring test, the Python expression `sub in s`. -/
def containsSub (sub : List Char) : List Char → Bool
  | [] => sub.isEmpty
  | c :: cs => sub.isPrefixOf (c :: cs) || containsSub sub cs

/-- Python `str.lower` (ASCII lowering suffices for the messages used). -/
def pyLower (l : List Char) : List Char := l.map Char.toLower

/-- First index at or after `start` where `sub` occurs, else -1
(Python `str.find(sub, start)` for a clamped non-negative start). -/
def pyFindFrom (sub : List Char) : List Char → Nat → Nat → Int
  | l, skip, acc =>
    match skip, l with
    | 0, l =>
      if sub.isPrefixOf l then (acc : Int)
      else match l with
        | [] => -1
        | _ :: cs => pyFindFrom sub cs 0 (acc + 1)
    | _ + 1, [] => if sub.isEmpty then (acc : Int) else -1
    | n + 1, _ :: cs => pyFindFrom sub cs n (acc + 1)
  termination_by l skip _ => l.length + skip

/-- Python `s.find(sub, start)`: a negative `start` counts from the end
of the string and is clamped at 0. -/
def pyFind (s sub : List Char) (start : Int) : Int :=
  let start' : Nat := if start < 0 then ((s.length : Int) + start).toNat else start.toNat
  pyFindFrom sub s start' 0

/-- Python `s.find(sub)`. -/
def pyFind0 (s sub : List Char) : Int := pyFind s sub 0

/-- Faults raised by the text-generation service, carrying the
exception message (`str(e)` in the source). -/
structure Fault where
  msg : String
deriving DecidableEq

/-- Embeds `datamodel.Judgement`. -/
structure Judgement where
  judge : Bool := false
  reason : String := ""
deriving DecidableEq

/-- Embeds `datamodel.State`. -/
structure State where
  user_request : String
  story : String := ""
  iteration : Int := 0
  current_judge : Bool := false
  judgement_reason : String := ""
  slide_contents : String := ""
  slide_gen_code : String := ""
deriving DecidableEq

/-- Result of a Python call at a modelled interface: a return value,
a raised exception, or the implicit Python `None` return. -/
inductive PyResult (α : Type) where
  | ok (a : α)
  | raised (e : Fault)
  | pynone
deriving DecidableEq

/-! ## `story_evaluator.py` -/

namespace StoryEvaluator

/-- The fixed diagnostic reason returned when the evaluation chain fails
(`story_evaluator.py`, line 103). -/
def errorReason : String :=
  "API呼び出し中にエラーが発生したため、ストーリーを再生成します。"

/-- Embeds `StoryEvaluator.run`: the whole body is wrapped in `try/except`;
`invokeResult` is the outcome of `chain.invoke`.  On success the
judgement is returned; on any exception a negative judgement with the
fixed diagnostic reason is returned. -/
def run (invokeResult : Except Fault Judgement) : Judgement :=
  match invokeResult with
  | .ok j => j
  | .error _ => { judge := false, reason := errorReason }

end StoryEvaluator

/-! ## `story_generator.py` and `pptx_code_generator.py` -/

/-- The quota-error markers checked by the two generator stages
(`quota_errors = ["insufficient_quota", "quota exceeded", "rate_limit"]`). -/
def generatorQuotaMarkers : List String :=
  ["insufficient_quota", "quota exceeded", "rate_limit"]

/-- Embeds `any(err in error_msg for err in quota_errors)` on the lowered message. -/
def isGeneratorQuotaMsg (loweredMsg : List Char) : Bool :=
  generatorQuotaMarkers.any (fun q => containsSub q.data loweredMsg)

/-- Embeds `"rate" in error_msg and "limit" in error_msg` on the lowered message. -/
def isRateLimitMsg (loweredMsg : List Char) : Bool :=
  containsSub "rate".data loweredMsg && containsSub "limit".data loweredMsg

/-- The retry loop shared verbatim by `StoryGenerator.run` and
`PPTXCodeGenerator.run` (`for attempt in range(self.max_retries + 1)`),
parameterised by the fixed text returned on exhausted generic errors.
`att i` is the outcome of `chain.invoke` on attempt `i`; `last` is
`last_error`. Quota-class errors are re-raised at once; rate-limit-style
errors back off and continue; other errors retry, and on the final
attempt return the fallback text.  After the loop, `last_error` is
re-raised if set (Python otherwise returns `None`). -/
def genLoop (att : Nat → Except Fault String) (maxRetries : Nat)
    (fallbackText : String) : Nat → Nat → Option Fault → PyResult String
  | 0, _, last =>
    match last with
    | some e => .raised e
    | none => .pynone
  | fuel + 1, i, _ =>
    match att i with
    | .ok s => .ok s
    | .error e =>
      if isGeneratorQuotaMsg (pyLower e.msg.data) then .raised e
      else if isRateLimitMsg (pyLower e.msg.data) then
        genLoop att maxRetries fallbackText fuel (i + 1) (some e)
      else if i == maxRetries then .ok fallbackText
      else genLoop att maxRetries fallbackText fuel (i + 1) (some e)

namespace StoryGenerator

/-- The degraded story outline returned when all attempts fail with a
generic error (`story_generator.py`, lines 135-156). -/
def fallbackText : String :=
  "\nプレゼンテーションの基本構成：\n\n1. 導入部\n   - トピックの紹介と背景情報\n   - 聴衆の注目を集める導入\n\n2. 主要ポイント\n   - トピックの主要な側面を3-5点程度\n   - 各ポイントは明確な見出しと簡潔な説明\n\n3. データと分析\n   - ポイントを裏付けるデータや事実\n   - 簡潔なグラフや図表の提案\n\n4. 結論\n   - 主要ポイントのまとめ\n   - 次のステップや行動の提案\n\n5. 質疑応答\n   - 想定される質問と回答\n                    "

/-- Embeds `StoryGenerator.run` as a function of the per-attempt outcomes of
`chain.invoke` and of `max_retries` (default 2). -/
def run (maxRetries : Nat) (att : Nat → Except Fault String) : PyResult String :=
  genLoop att maxRetries fallbackText (maxRetries + 1) 0 none

end StoryGenerator

namespace SlideContentsGenerator

/-- Python slicing `s[:n]` (clamped take), used by the fallback
f-string of `slide_contents_generator.py`. -/
def pySliceTo (n : Nat) (s : String) : String := String.mk (s.data.take n)

/-- The degraded slide outline returned when all attempts fail with a
generic error (`slide_contents_generator.py`, lines 156-187): an
f-string interpolating `user_request[:100]` and `user_request[:50]`,
deterministic in the user request. -/
def fallbackText (user_request : String) : String :=
  "\n# プレゼンテーション資料\n\n## このプレゼンテーションについて\n- APIエラーが発生したため、基本的なスライド構成のみ生成されました\n- ユーザーリクエスト: "
  ++ pySliceTo 100 user_request
  ++ "...\n\n---next---\n\n# 目次\n1. 導入\n2. 主要ポイント\n3. まとめ\n\n---next---\n\n# 導入\n- このプレゼンテーションでは、"
  ++ pySliceTo 50 user_request
  ++ "...について説明します\n\n---next---\n\n# 主要ポイント\n- ポイント1: 詳細情報\n- ポイント2: 詳細情報\n- ポイント3: 詳細情報\n\n---next---\n\n# まとめ\n- 主要ポイントの要約\n- 次のステップ\n                    "

/-- Embeds `SlideContentsGenerator.run` as a function of the user
request, the per-attempt outcomes of `chain.invoke` and of
`max_retries` (default 2); the retry loop is identical to the other
two generator stages. -/
def run (maxRetries : Nat) (user_request : String)
    (att : Nat → Except Fault String) : PyResult String :=
  genLoop att maxRetries (fallbackText user_request) (maxRetries + 1) 0 none

end SlideContentsGenerator

namespace PPTXCodeGenerator

/-- The degraded fallback code returned when all attempts fail with a
generic error (`pptx_code_generator.py`, lines 184-226). -/
def fallbackText : String :=
  "\n# APIエラーが発生したため、基本的なPPTXファイルを生成するコードを返します\nfrom pptx import Presentation\nfrom pptx.util import Inches, Pt\nfrom pptx.enum.text import PP_ALIGN\n\n# テンプレートから新しいプレゼンテーションを作成\nprs = Presentation(" ++ sqS ++ "workspace/input/template.pptx" ++ sqS ++ ")\n\n# タイトルスライドを追加\nslide_layout = prs.slide_layouts[2]\nslide = prs.slides.add_slide(slide_layout)\n\n# プレースホルダーへテキストを設定\ntitle_placeholder = slide.placeholders[10]\nsubtitle_placeholder = slide.placeholders[11]\npresenter_placeholder = slide.placeholders[12]\ntitle_placeholder.text = \"APIエラーが発生しました\"\nsubtitle_placeholder.text = \"エラーのため簡易的なプレゼンテーションを生成しました\"\npresenter_placeholder.text = \"AI プレゼンテーション生成\"\n\n# 内容スライドを追加\nslide_layout = prs.slide_layouts[0]\nslide = prs.slides.add_slide(slide_layout)\ntitle = slide.shapes.title\nbody = slide.placeholders[1]\ntitle.text = \"プレゼンテーション内容\"\ntf = body.text_frame\ntf.text = \"APIエラーが発生したため、本来の内容を生成できませんでした。\"\n\np = tf.add_paragraph()\np.text = \"1. 問題が解決するまでこの簡易版プレゼンテーションをご利用ください。\"\np.level = 1\n\np = tf.add_paragraph()\np.text = \"2. APIの利用制限を確認してください。\"\np.level = 1\n\n# 保存\noutput_file = " ++ sqS ++ "workspace/output/error_presentation.pptx" ++ sqS ++ "\nprs.save(output_file)\nprint(f\"プレゼンテーションを {output_file} に保存しました。\")\n"

/-- Embeds `PPTXCodeGenerator.run` as a function of the per-attempt outcomes of
`chain.invoke` and of `max_retries` (default 2). -/
def run (maxRetries : Nat) (att : Nat → Except Fault String) : PyResult String :=
  genLoop att maxRetries fallbackText (maxRetries + 1) 0 none

end PPTXCodeGenerator

/-! ## `pptx_agent.py` -/

namespace PPTXAgent

/-- The `llm` references held by the four stage components (clients are
identified by their model identifier). -/
structure Bindings where
  story_generator : String
  story_evaluator : String
  slide_contents_generator : String
  pptx_code_generator : String
deriving DecidableEq

/-- Uniform bindings, as produced by `__init__` (every component gets
the `llm` of the constructor) and by the fallback swap. -/
def Bindings.all (llm : String) : Bindings := ⟨llm, llm, llm, llm⟩

/-- The agent configuration fixed at construction. -/
structure Cfg where
  use_fallback : Bool
  fallback_llm : Option String
  max_retries : Nat
deriving DecidableEq

/-- Embeds `PPTXAgent.__init__`: the fallback LLM is `gpt-3.5-turbo`, created
only when fallback is enabled and the primary model is not already
`gpt-3.5-turbo`; every component is bound to the primary `llm`. -/
def init (llmModel : String) (use_fallback : Bool) (max_retries : Nat) :
    Cfg × Bindings :=
  (⟨use_fallback,
    if use_fallback && llmModel ≠ "gpt-3.5-turbo" then some "gpt-3.5-turbo" else none,
    max_retries⟩,
   Bindings.all llmModel)

/-- Quota/rate-limit detection in `_with_retries_and_fallback`
(line 97: `"insufficient_quota" in error_msg or "rate_limit" in error_msg`). -/
def isWrapperQuotaMsg (e : Fault) : Bool :=
  let m := pyLower e.msg.data
  containsSub "insufficient_quota".data m || containsSub "rate_limit".data m

/-- One recorded invocation of the wrapped `func`: the component
bindings in force and the running attempt index. -/
structure Attempt where
  bindings : Bindings
  idx : Nat
deriving DecidableEq

/-- Exit of the primary retry loop: either `func` returned, or the loop
fell through with `last_error`, the next attempt index and the trace. -/
inductive LoopExit (α : Type) where
  | returned (a : α) (trace : List Attempt)
  | fell (last : Option Fault) (next : Nat) (trace : List Attempt)

/-- The primary loop of `_with_retries_and_fallback`
(`for attempt in range(self.max_retries)`): return on success, break on
quota-class errors, otherwise back off and retry. -/
def wrapLoop (f : Bindings → Nat → Except Fault α) (b : Bindings) :
    Nat → Nat → Option Fault → List Attempt → LoopExit α
  | 0, i, last, tr => .fell last i tr
  | fuel + 1, i, _, tr =>
    match f b i with
    | .ok a => .returned a (tr ++ [⟨b, i⟩])
    | .error e =>
      if isWrapperQuotaMsg e then .fell (some e) (i + 1) (tr ++ [⟨b, i⟩])
      else wrapLoop f b fuel (i + 1) (some e) (tr ++ [⟨b, i⟩])

/-- The `finally` block: the `llm` of each component is restored from the
`orig_llm` map saved before the swap. -/
def restoreBindings (orig _cur : Bindings) : Bindings :=
  { story_generator := orig.story_generator
    story_evaluator := orig.story_evaluator
    slide_contents_generator := orig.slide_contents_generator
    pptx_code_generator := orig.pptx_code_generator }

/-- Embeds `PPTXAgent._with_retries_and_fallback`.  `f` is the wrapped call; it
sees the component bindings in force and a running attempt index.
Returns the Python result, the component bindings after the wrapper
completes, and the trace of invocations of `f`. -/
def withRetriesAndFallback (cfg : Cfg) (b0 : Bindings)
    (f : Bindings → Nat → Except Fault α) :
    PyResult α × Bindings × List Attempt :=
  match wrapLoop f b0 cfg.max_retries 0 none [] with
  | .returned a tr => (.ok a, b0, tr)
  | .fell last n tr =>
    if h : cfg.use_fallback ∧ cfg.fallback_llm.isSome then
      let fb := cfg.fallback_llm.get h.2
      let swapped := Bindings.all fb
      match f swapped n with
      | .ok a => (.ok a, restoreBindings b0 swapped, tr ++ [⟨swapped, n⟩])
      | .error e => (.raised e, restoreBindings b0 swapped, tr ++ [⟨swapped, n⟩])
    else
      match last with
      | some e => (.raised e, b0, tr)
      | none => (.pynone, b0, tr)

/-! ### The workflow graph (`_create_graph` and the node functions) -/

/-- The nodes of the compiled `StateGraph`, plus the `END` sentinel. -/
inductive GraphNode where
  | generate_story
  | evaluate_story
  | generate_slide_contents
  | generate_pptx_code
  | END
deriving DecidableEq

/-- Oracle for the stage outputs observed during one run: the story and
judgement produced by the i-th story/evaluation call, and the contents
and code stages as functions of their inputs. -/
structure StageOracle where
  storyAt : Int → String
  judgeAt : Int → Judgement
  contentsOf : String → String → String
  codeOf : String → String

/-- One transition of the compiled graph: execute the update of the current
node and follow the (conditional) edge.  The conditional edge out of
`evaluate_story` is `lambda state: not state.current_judge and
state.iteration < 5`, mapping `True` to `generate_story` and `False`
to `generate_slide_contents`. -/
def step (env : StageOracle) : GraphNode × State → GraphNode × State
  | (.generate_story, s) =>
    (.evaluate_story,
     { s with story := env.storyAt s.iteration, iteration := s.iteration + 1 })
  | (.evaluate_story, s) =>
    let j := env.judgeAt s.iteration
    let s1 := { s with current_judge := j.judge, judgement_reason := j.reason }
    if ¬s1.current_judge ∧ s1.iteration < 5 then (.generate_story, s1)
    else (.generate_slide_contents, s1)
  | (.generate_slide_contents, s) =>
    (.generate_pptx_code, { s with slide_contents := env.contentsOf s.user_request s.story })
  | (.generate_pptx_code, s) =>
    (.END, { s with slide_gen_code := env.codeOf s.slide_contents })
  | (.END, s) => (.END, s)

/-- The initial state built in `run`: `State(user_request=user_request)`
with all remaining fields at their defaults. -/
def initState (user_request : String) : State := { user_request := user_request }

/-- Runs `n` transitions of the compiled graph from a given configuration. -/
def execFrom (env : StageOracle) : Nat → GraphNode × State → GraphNode × State
  | 0, x => x
  | n + 1, x => execFrom env n (step env x)

/-- The graph run from the entry point `generate_story` for `n` steps. -/
def exec (env : StageOracle) (user_request : String) (n : Nat) : GraphNode × State :=
  execFrom env n (.generate_story, initState user_request)

/-- The fixed code template returned by `PPTXAgent.run` when executing
the graph raises (`pptx_agent.py`, lines 266-308). -/
def errorTemplate : String :=
  "\n# エラーが発生したため、簡易的なPPTXファイルを生成します\nfrom pptx import Presentation\nfrom pptx.util import Inches, Pt\n\n# 新しいプレゼンテーションを作成\nprs = Presentation()\n\n# タイトルスライドを追加\ntitle_slide_layout = prs.slide_layouts[0]\nslide = prs.slides.add_slide(title_slide_layout)\ntitle = slide.shapes.title\nsubtitle = slide.placeholders[1]\n\ntitle.text = \"エラーが発生しました\"\nsubtitle.text = \"APIクォータ超過またはその他のエラーにより、プレゼンテーションを生成できませんでした。\"\n\n# 情報スライドを追加\nbullet_slide_layout = prs.slide_layouts[1]\nslide = prs.slides.add_slide(bullet_slide_layout)\ntitle = slide.shapes.title\nbody = slide.placeholders[1]\n\ntitle.text = \"エラーの解決方法\"\ntf = body.text_frame\ntf.text = \"以下の方法を試してください：\"\n\np = tf.add_paragraph()\np.text = \"1. OpenAIダッシュボードでAPIの使用状況と制限を確認する\"\np.level = 1\n\np = tf.add_paragraph()\np.text = \"2. 有料プランにアップグレードする\"\np.level = 1\n\np = tf.add_paragraph()\np.text = \"3. 別のAPIキーを使用する\"\np.level = 1\n\n# プレゼンテーションを保存\nprs.save(" ++ sqS ++ "workspace/output/error_presentation.pptx" ++ sqS ++ ")\nprint(\"エラー用のプレゼンテーションが生成されました: workspace/output/error_presentation.pptx\")\n"

/-- Embeds `PPTXAgent.run` as a function of the outcome of
`self.graph.invoke(initial_state)`: on success it projects
`final_state["slide_gen_code"]`; on any exception it returns the fixed
error template. -/
def run (graphOutcome : Except Fault State) : String :=
  match graphOutcome with
  | .ok finalState => finalState.slide_gen_code
  | .error _ => errorTemplate

end PPTXAgent

/-! ## `app.py`: the code sanitizer -/

namespace App

/-- The `safe_placeholder_code` helper preamble prepended by the
sanitizer (`app.py`, lines 521-596), assembled around its docstring
quotes. -/
def safePlaceholderCode : String :=
  "\n# 必要なインポート\nimport os\nfrom pptx.util import Inches, Pt\nfrom pptx.enum.text import PP_ALIGN\nfrom pptx.dml.color import RGBColor\nfrom pptx.enum.shapes import MSO_SHAPE\n\n# 塗りつぶしに関する安全なアクセスのためのヘルパー関数\ndef set_fill_color_safe(fill, color):\n    "
  ++ tq ++ "フィルに安全に色を設定する(Noneフィルの場合はsolid()を先に呼び出す)" ++ tq
  ++ "\n    try:\n        if hasattr(fill, " ++ sqS ++ "type" ++ sqS
  ++ ") and fill.type == None:\n            fill.solid()\n        fill.fore_color.rgb = color\n        return True\n    except (AttributeError, TypeError) as e:\n        print(f\"フィルの色設定に失敗しました: {e}\")\n        try:\n            # 別の方法を試す\n            fill.solid()\n            fill.fore_color.rgb = color\n            return True\n        except Exception as e2:\n            print(f\"フィルの色設定の2回目の試行も失敗しました: {e2}\")\n            return False\n\n# 画像ファイルを安全に扱うためのヘルパー関数\ndef add_image_safe(slide, image_path, left=Inches(1), top=Inches(2), width=Inches(4), height=Inches(3)):\n    "
  ++ tq ++ "指定された画像を安全に追加する(ファイルが存在しない場合はプレースホルダーを作成)" ++ tq
  ++ "\n    if os.path.exists(image_path):\n        try:\n            return slide.shapes.add_picture(image_path, left, top, width, height)\n        except Exception as e:\n            print(f\"画像の追加に失敗しました: {e}\")\n            # 画像の追加に失敗した場合 代わりにテキストボックスを作成\n            shape = slide.shapes.add_textbox(left, top, width, height)\n            tf = shape.text_frame\n            tf.text = f\"[画像を表示できません: {os.path.basename(image_path)}]\"\n            return shape\n    else:\n        # 画像ファイルが存在しない場合 代わりにテキストボックスを作成\n        shape = slide.shapes.add_textbox(left, top, width, height)\n        tf = shape.text_frame\n        tf.text = f\"[画像ファイルが見つかりません: {os.path.basename(image_path)}]\"\n        return shape\n\n# プレースホルダーに安全にアクセスするためのヘルパー関数\ndef get_placeholder_safe(slide, idx, default_title=\"\", default_content=\"\"):\n    "
  ++ tq ++ "プレースホルダーに安全にアクセスし 存在しない場合はテキストボックスを作成" ++ tq
  ++ "\n    try:\n        return slide.placeholders[idx]\n    except KeyError:\n        # プレースホルダーが存在しない場合 テキストボックスを作成\n        print(f\"プレースホルダー {idx} が見つかりません. テキストボックスを作成します.\")\n        if idx == 0:  # タイトル用\n            left, top, width, height = Inches(0.5), Inches(0.5), Inches(9), Inches(1.2)\n            shape = slide.shapes.add_textbox(left, top, width, height)\n            shape.text = default_title\n            return shape\n        elif idx == 1:  # 本文用\n            left, top, width, height = Inches(0.5), Inches(2), Inches(9), Inches(4)\n            shape = slide.shapes.add_textbox(left, top, width, height)\n            shape.text = default_content\n            return shape\n        elif idx == 11:  # 特にプレースホルダー11のエラーに対応\n            left, top, width, height = Inches(1), Inches(2), Inches(8), Inches(3)\n            shape = slide.shapes.add_textbox(left, top, width, height)\n            shape.text = default_content\n            return shape\n        else:  # その他のインデックス\n            left, top, width, height = Inches(1), Inches(1.5 + (idx * 0.5) % 5), Inches(8), Inches(1)\n            shape = slide.shapes.add_textbox(left, top, width, height)\n            shape.text = default_content\n            return shape\n"

/-- The import lines the sanitizer ensures are present
(`required_imports`, `app.py` lines 600-606). -/
def requiredImports : List String :=
  ["import os",
   "from pptx.util import Inches, Pt",
   "from pptx.enum.text import PP_ALIGN",
   "from pptx.dml.color import RGBColor",
   "from pptx.enum.shapes import MSO_SHAPE"]

/-- Computes `import_section_end = modified_code.find("\n\n", modified_code.find("import"))`. -/
def importSectionEnd (code : List Char) : Int :=
  pyFind code "\n\n".data (pyFind0 code "import".data)

/-- One step of the import-insertion loop (`app.py` lines 609-617):
if `import_line not in modified_code`, insert it after the import
section (Python `find` semantics, including `find` returning -1). -/
def addImportLine (code line : List Char) : List Char :=
  if containsSub line code then code
  else if importSectionEnd code > 0 then
    code.take (importSectionEnd code).toNat ++
      '\n' :: (line ++ code.drop (importSectionEnd code).toNat)
  else line ++ '\n' :: '\n' :: code

/-- The full import-insertion loop over `required_imports`. -/
def addImports (code : List Char) : List Char :=
  requiredImports.foldl (fun acc line => addImportLine acc line.data) code

/-- Python `str.replace(pat, rep)` (all occurrences, left to right,
non-overlapping); `fuel` is a termination bound instantiated with the
input length. -/
def replaceAllF (pat rep : List Char) : Nat → List Char → List Char
  | _, [] => []
  | 0, l => l
  | fuel + 1, c :: cs =>
    if pat ≠ [] ∧ pat.isPrefixOf (c :: cs) then
      rep ++ replaceAllF pat rep fuel ((c :: cs).drop pat.length)
    else c :: replaceAllF pat rep fuel cs

/-- Python `str.replace(pat, rep)` for the non-empty patterns used here. -/
def replaceAll (pat rep l : List Char) : List Char := replaceAllF pat rep l.length l

/-- The indices in the order the placeholder replacements are applied:
0, 1, 11 explicitly, then the `range(2, 16)` loop (11 again, a no-op by
then). -/
def placeholderIdxOrder : List Nat := [0, 1, 11] ++ List.range' 2 14

/-- Builds the pattern `slide.placeholders[i]`. -/
def phPat (i : Nat) : String := "slide.placeholders[" ++ toString i ++ "]"

/-- Builds the replacement `get_placeholder_safe(slide, i)`. -/
def phRep (i : Nat) : String := "get_placeholder_safe(slide, " ++ toString i ++ ")"

/-- The literal textual replacements, in application order
(`app.py` lines 623-632): the image-insertion rewrite, then the
placeholder-access rewrites. -/
def literalSubs : List (List Char × List Char) :=
  ("slide.shapes.add_picture(".data, "add_image_safe(slide, ".data) ::
    placeholderIdxOrder.map (fun i => ((phPat i).data, (phRep i).data))

/-- Applies the literal replacements in order. -/
def applyLiteralSubs (code : List Char) : List Char :=
  literalSubs.foldl (fun acc pr => replaceAll pr.1 pr.2 acc) code

/-- The character class `[a-zA-Z0-9_]` of the first fill regex. -/
def isWordChar (c : Char) : Bool :=
  (('a' ≤ c) && (c ≤ 'z')) || (('A' ≤ c) && (c ≤ 'Z')) ||
    (('0' ≤ c) && (c ≤ '9')) || (c == '_')

/-- The regex class `\s` (the ASCII whitespace characters). -/
def pyIsSpace (c : Char) : Bool :=
  c == ' ' || c == '\t' || c == '\n' || c == '\r' ||
    c == Char.ofNat 11 || c == Char.ofNat 12

/-- The class `[^;\n]`. -/
def notSemiNl (c : Char) : Bool := !(c == ';' || c == '\n')

/-- Parses the common regex tail `\s*=\s*([^;\n]+)` after the literal
part of the two fill patterns, returning
`(consumed text, captured group, remaining text)`.  When the greedy
second `\s*` leaves nothing for `[^;\n]+`, the regex engine backtracks
one whitespace character into the group. -/
def parseEqTail (r2 : List Char) : Option (List Char × List Char × List Char) :=
  let s1 := r2.takeWhile pyIsSpace
  let r3 := r2.dropWhile pyIsSpace
  match r3 with
  | [] => none
  | eqc :: r4 =>
    if eqc = '=' then
      let s2 := r4.takeWhile pyIsSpace
      let r5 := r4.dropWhile pyIsSpace
      let body := r5.takeWhile notSemiNl
      let rest := r5.dropWhile notSemiNl
      if body.isEmpty then
        match s2.getLast? with
        | some lastSpace => some (s1 ++ eqc :: s2, [lastSpace], r5)
        | none => none
      else some (s1 ++ eqc :: (s2 ++ body), body, rest)
    else none

/-- The literal core of `([a-zA-Z0-9_]+)\.fill\.fore_color\.rgb`. -/
def fillLit1 : List Char := ".fill.fore_color.rgb".data

/-- The literal core of `fill\.fore_color\.rgb`. -/
def fillLit2 : List Char := "fill.fore_color.rgb".data

/-- The fixed head of the substitution `set_fill_color_safe(\1.fill, \2)`. -/
def fillRep1Pre : List Char := "set_fill_color_safe(".data

/-- The fixed middle of the substitution `set_fill_color_safe(\1.fill, \2)`. -/
def fillRep1Mid : List Char := ".fill, ".data

/-- The fixed head of the substitution `set_fill_color_safe(fill, \1)`. -/
def fillRep2Pre : List Char := "set_fill_color_safe(fill, ".data

/-- Attempted match of the first fill regex
`([a-zA-Z0-9_]+)\.fill\.fore_color\.rgb\s*=\s*([^;\n]+)` at the head of
`l`; on success returns the consumed text, the substituted text
`set_fill_color_safe(\1.fill, \2)` and the remaining text. -/
def tryFill1 (l : List Char) : Option (List Char × List Char × List Char) :=
  let w := l.takeWhile isWordChar
  let r1 := l.dropWhile isWordChar
  if w.isEmpty then none
  else if fillLit1.isPrefixOf r1 then
    match parseEqTail (r1.drop fillLit1.length) with
    | some (con, body, rest) =>
      some (w ++ fillLit1 ++ con,
            fillRep1Pre ++ w ++ fillRep1Mid ++ body ++ [')'],
            rest)
    | none => none
  else none

/-- Attempted match of the second fill regex
`fill\.fore_color\.rgb\s*=\s*([^;\n]+)` at the head of `l`; on success
returns the consumed text, the substituted text
`set_fill_color_safe(fill, \1)` and the remaining text. -/
def tryFill2 (l : List Char) : Option (List Char × List Char × List Char) :=
  if fillLit2.isPrefixOf l then
    match parseEqTail (l.drop fillLit2.length) with
    | some (con, body, rest) =>
      some (fillLit2 ++ con,
            fillRep2Pre ++ body ++ [')'],
            rest)
    | none => none
  else none

/-- Embeds the `re.sub` driver: scans left to right, replacing each leftmost
match and continuing after it; `fuel` is a termination bound
instantiated with the input length. -/
def scanSubF (M : List Char → Option (List Char × List Char × List Char)) :
    Nat → List Char → List Char
  | _, [] => []
  | 0, l => l
  | fuel + 1, c :: cs =>
    match M (c :: cs) with
    | some (_, rep, rest) => rep ++ scanSubF M fuel rest
    | none => c :: scanSubF M fuel cs

/-- Embeds `re.sub` for the first fill pattern (`app.py` lines 635-639). -/
def fillSub1 (l : List Char) : List Char := scanSubF tryFill1 l.length l

/-- Embeds `re.sub` for the second fill pattern (`app.py` lines 642-646). -/
def fillSub2 (l : List Char) : List Char := scanSubF tryFill2 l.length l

/-- The sanitizer (`app.py` lines 598-646): insert missing imports,
prepend the safe helper preamble followed by a blank line, rewrite
image insertion and placeholder accesses, then apply the two fill
regex substitutions. -/
def sanitizeData (code : List Char) : List Char :=
  fillSub2 (fillSub1 (applyLiteralSubs
    (safePlaceholderCode.data ++ '\n' :: '\n' :: addImports code)))

/-- The sanitizer at the `String` interface. -/
def sanitize (code : String) : String := ⟨sanitizeData code.data⟩

/-- True when some position of `l` matches `M`. -/
def anyMatchPos (M : List Char → Option (List Char × List Char × List Char)) :
    List Char → Bool
  | [] => false
  | c :: cs => (M (c :: cs)).isSome || anyMatchPos M cs

/-- Decides "contains none of the known fragile patterns": no literal
image-insertion or placeholder-indexing occurrence, and no position
matching either fill regex. -/
def fragileFree (code : String) : Bool :=
  literalSubs.all (fun pr => !containsSub pr.1 code.data) &&
    !anyMatchPos tryFill1 code.data && !anyMatchPos tryFill2 code.data

/-! ## `app.py`: the execution cascade -/

/-- Exceptions observed while executing generated code: Python
distinguishes `KeyError` (caught first, `app.py` line 773) from all
other exceptions (line 945). -/
inductive PyExc where
  | keyError (msg : String)
  | otherExc (msg : String)
deriving DecidableEq

/-- Outcomes of the three execution tiers for one run, plus whether the
sanitized file `workspace/output/create_pptx_safe.py` exists.  `tier1`
is `exec(modified_code)`, `tier2` is `exec(safe_code)`, `tier3` is
`generate_safe_presentation()` together with the final existence check
of its output file. -/
structure CascadeEnv where
  tier1 : Except PyExc Unit
  safeCodeExists : Bool
  tier2 : Except PyExc Unit
  tier3 : Except PyExc Unit

/-- Which fallback tiers ran and whether `generation_successful` ends
true (an artifact was produced). -/
structure CascadeOutcome where
  ranTier2 : Bool
  ranTier3 : Bool
  generationSuccessful : Bool
deriving DecidableEq

/-- The message test selecting the cascade (`app.py` line 775). -/
def placeholderKeyErrorMarker : String := "no placeholder on this slide with idx"

/-- A tier-1 exception is cascade-eligible exactly when it is a
`KeyError` whose text contains the placeholder marker. -/
def isPlaceholderKeyError : PyExc → Bool
  | .keyError msg => containsSub placeholderKeyErrorMarker.data msg.data
  | .otherExc _ => false

/-- The cascade control flow of `app.py` lines 661-949: tier 1 success
ends the run successfully; a `KeyError` whose text contains the
placeholder marker runs tier 2 (when the sanitized file exists) and
then tier 3 on a further failure, or tier 3 directly; a `KeyError`
without the marker, or any other exception, is caught and ends the run
with no artifact and no further tier. -/
def runCascade (env : CascadeEnv) : CascadeOutcome :=
  match env.tier1 with
  | .ok _ => ⟨false, false, true⟩
  | .error e =>
    match e with
    | .keyError msg =>
      if containsSub placeholderKeyErrorMarker.data msg.data then
        if env.safeCodeExists then
          match env.tier2 with
          | .ok _ => ⟨true, false, true⟩
          | .error _ =>
            match env.tier3 with
            | .ok _ => ⟨true, true, true⟩
            | .error _ => ⟨true, true, false⟩
        else
          match env.tier3 with
          | .ok _ => ⟨false, true, true⟩
          | .error _ => ⟨false, true, false⟩
      else ⟨false, false, false⟩
    | .otherExc _ => ⟨false, false, false⟩

/-- The character 必 (U+5FC5).  It occurs exactly once in
`safePlaceholderCode` (in its leading comment) and in none of the
replacement patterns, so its occurrence count increases by exactly one
per sanitizer pass. -/
def markerChar : Char := Char.ofNat 24517

end App

/-!
# Theorems

Helper lemmas first, then one named theorem per claim (with its
witness or counterexample where required).
-/

theorem countC_cons (a c : Char) (l : List Char) :
    countC a (c :: l) = (if c = a then 1 else 0) + countC a l := rfl

theorem countC_append (a : Char) (l m : List Char) :
    countC a (l ++ m) = countC a l + countC a m := by
  induction l with
  | nil => simp [countC]
  | cons c cs ih => simp [countC, ih]; omega

theorem countC_eq_zero_of_forall_ne (a : Char) (l : List Char)
    (h : ∀ x ∈ l, x ≠ a) : countC a l = 0 := by
  induction l with
  | nil => rfl
  | cons c cs ih =>
    simp only [countC]
    rw [if_neg (h c (by simp)), ih (fun x hx => h x (by simp [hx]))]

theorem countC_foldl (a : Char) (l : List Char) (acc : Nat) :
    List.foldl (fun n c => if c = a then n + 1 else n) acc l = acc + countC a l := by
  induction l generalizing acc with
  | nil => simp [countC]
  | cons c cs ih =>
    simp only [List.foldl_cons, countC, ih]
    split <;> omega

theorem countT_eq_countC (a : Char) (l : List Char) : countT a l = countC a l := by
  unfold countT
  rw [countC_foldl, Nat.zero_add]

theorem eq_append_drop_of_isPrefixOf {pat l : List Char} (h : pat.isPrefixOf l) :
    l = pat ++ l.drop pat.length := by
  have hp : pat <+: l := List.isPrefixOf_iff_prefix.mp h
  have ht : pat = l.take pat.length := List.prefix_iff_eq_take.mp hp
  conv_lhs => rw [← List.take_append_drop pat.length l]
  rw [← ht]

namespace App

theorem countC_replaceAllF (a : Char) {pat rep : List Char}
    (hpat : countC a pat = 0) (hrep : countC a rep = 0) :
    ∀ (fuel : Nat) (l : List Char),
      countC a (replaceAllF pat rep fuel l) = countC a l := by
  intro fuel
  induction fuel with
  | zero => intro l; cases l <;> rfl
  | succ n ih =>
    intro l
    cases l with
    | nil => rfl
    | cons c cs =>
      rw [replaceAllF]
      split
      case isTrue h =>
        rw [countC_append, hrep, Nat.zero_add, ih]
        conv_rhs => rw [eq_append_drop_of_isPrefixOf h.2]
        rw [countC_append, hpat, Nat.zero_add]
      case isFalse h =>
        simp only [countC, ih]

theorem countC_replaceAll (a : Char) {pat rep : List Char}
    (hpat : countC a pat = 0) (hrep : countC a rep = 0) (l : List Char) :
    countC a (replaceAll pat rep l) = countC a l :=
  countC_replaceAllF a hpat hrep l.length l

theorem countC_scanSubF (a : Char)
    (M : List Char → Option (List Char × List Char × List Char))
    (hM : ∀ l con rep rest, M l = some (con, rep, rest) →
      l = con ++ rest ∧ countC a con = countC a rep) :
    ∀ (fuel : Nat) (l : List Char),
      countC a (scanSubF M fuel l) = countC a l := by
  intro fuel
  induction fuel with
  | zero => intro l; cases l <;> rfl
  | succ n ih =>
    intro l
    cases l with
    | nil => rfl
    | cons c cs =>
      rw [scanSubF]
      cases hMl : M (c :: cs) with
      | some res =>
        obtain ⟨con, rep, rest⟩ := res
        obtain ⟨hdec, hcnt⟩ := hM _ _ _ _ hMl
        rw [countC_append, ih, hdec, countC_append, hcnt]
      | none =>
        simp only [countC, ih]

theorem countC_takeWhile_eq_zero {p : Char → Bool} {a : Char}
    (ha : p a = false) (l : List Char) :
    countC a (l.takeWhile p) = 0 := by
  refine countC_eq_zero_of_forall_ne a _ (fun x hx => ?_)
  intro hxa
  have := List.mem_takeWhile_imp hx
  rw [hxa, ha] at this
  simp at this

theorem parseEqTail_spec (a : Char) (has : pyIsSpace a = false)
    (hae : a ≠ '=') {r2 con body rest : List Char}
    (h : parseEqTail r2 = some (con, body, rest)) :
    r2 = con ++ rest ∧ countC a con = countC a body ∧ con ≠ [] := by
  unfold parseEqTail at h
  have hsplit : r2.takeWhile pyIsSpace ++ r2.dropWhile pyIsSpace = r2 :=
    List.takeWhile_append_dropWhile pyIsSpace r2
  have hcs1 : countC a (r2.takeWhile pyIsSpace) = 0 := countC_takeWhile_eq_zero has r2
  cases hr3e : r2.dropWhile pyIsSpace with
  | nil => rw [hr3e] at h; exact absurd h (by simp)
  | cons eqc r4 =>
    rw [hr3e] at h
    simp only at h
    by_cases heq : eqc = '='
    case neg => rw [if_neg heq] at h; exact absurd h (by simp)
    case pos =>
    subst heq
    rw [if_pos rfl] at h
    have hsplit4 : r4.takeWhile pyIsSpace ++ r4.dropWhile pyIsSpace = r4 :=
      List.takeWhile_append_dropWhile pyIsSpace r4
    have hcs2 : countC a (r4.takeWhile pyIsSpace) = 0 := countC_takeWhile_eq_zero has r4
    have hsplit5 :
        (r4.dropWhile pyIsSpace).takeWhile notSemiNl ++
          (r4.dropWhile pyIsSpace).dropWhile notSemiNl = r4.dropWhile pyIsSpace :=
      List.takeWhile_append_dropWhile notSemiNl (r4.dropWhile pyIsSpace)
    have heqa : ¬('=' = a) := fun hc => hae hc.symm
    by_cases hbe : ((r4.dropWhile pyIsSpace).takeWhile notSemiNl).isEmpty
    · rw [if_pos hbe] at h
      cases hgl : (r4.takeWhile pyIsSpace).getLast? with
      | none => rw [hgl] at h; exact absurd h (by simp)
      | some lastSpace =>
        rw [hgl] at h
        injection h with h2
        injection h2 with h1 h2
        injection h2 with h2 h3
        subst h1; subst h2; subst h3
        have hmem : lastSpace ∈ r4.takeWhile pyIsSpace := by
          obtain ⟨hne, hEq⟩ := List.mem_getLast?_eq_getLast (l := r4.takeWhile pyIsSpace)
            (x := lastSpace) (by rw [Option.mem_def]; exact hgl)
          rw [hEq]; exact List.getLast_mem hne
        have hls : pyIsSpace lastSpace = true := List.mem_takeWhile_imp hmem
        have hlsa : ¬(lastSpace = a) := by
          intro hc; rw [hc, has] at hls; simp at hls
        refine ⟨?_, ?_, by simp⟩
        · conv_lhs => rw [← hsplit, hr3e, ← hsplit4]
          simp only [List.append_assoc, List.cons_append]
        · rw [countC_append, hcs1, Nat.zero_add]
          simp only [countC]
          rw [if_neg heqa, hcs2, if_neg hlsa]
    · rw [if_neg hbe] at h
      injection h with h2
      injection h2 with h1 h2
      injection h2 with h2 h3
      subst h1; subst h2; subst h3
      refine ⟨?_, ?_, by simp⟩
      · conv_lhs => rw [← hsplit, hr3e, ← hsplit4, ← hsplit5]
        simp only [List.append_assoc, List.cons_append]
      · rw [countC_append, hcs1, Nat.zero_add]
        simp only [countC]
        rw [if_neg heqa, countC_append, hcs2, Nat.zero_add, Nat.zero_add]

theorem tryFill1_count (a : Char) (haw : isWordChar a = false)
    (has : pyIsSpace a = false) (hae : a ≠ '=')
    (hlit : countC a fillLit1 = 0)
    (hpre : countC a fillRep1Pre = 0)
    (hmid : countC a fillRep1Mid = 0)
    (hparen : ¬(')' = a))
    {l con rep rest : List Char} (h : tryFill1 l = some (con, rep, rest)) :
    l = con ++ rest ∧ countC a con = countC a rep := by
  unfold tryFill1 at h
  have hsplitw : l.takeWhile isWordChar ++ l.dropWhile isWordChar = l :=
    List.takeWhile_append_dropWhile isWordChar l
  have hcw : countC a (l.takeWhile isWordChar) = 0 := countC_takeWhile_eq_zero haw l
  by_cases hwe : (l.takeWhile isWordChar).isEmpty
  · rw [if_pos hwe] at h; exact absurd h (by simp)
  · rw [if_neg hwe] at h
    by_cases hpref : fillLit1.isPrefixOf (l.dropWhile isWordChar)
    case neg => rw [if_neg hpref] at h; exact absurd h (by simp)
    case pos =>
    rw [if_pos hpref] at h
    cases hpt : parseEqTail ((l.dropWhile isWordChar).drop fillLit1.length) with
    | none => rw [hpt] at h; exact absurd h (by simp)
    | some res =>
      obtain ⟨con2, body2, rest2⟩ := res
      rw [hpt] at h
      simp only at h
      injection h with h2
      injection h2 with h1 h2
      injection h2 with h2 h3
      subst h1; subst h2; subst h3
      obtain ⟨hdec, hcnt, _⟩ := parseEqTail_spec a has hae hpt
      constructor
      · conv_lhs => rw [← hsplitw]
        conv_lhs => rw [eq_append_drop_of_isPrefixOf hpref, hdec]
        simp only [List.append_assoc]
      · simp only [countC_append]
        rw [hcw, hlit, hpre, hmid, hcnt, countC_cons, if_neg hparen]
        simp [countC]

theorem tryFill2_count (a : Char)
    (has : pyIsSpace a = false) (hae : a ≠ '=')
    (hlit : countC a fillLit2 = 0)
    (hpre : countC a fillRep2Pre = 0)
    (hparen : ¬(')' = a))
    {l con rep rest : List Char} (h : tryFill2 l = some (con, rep, rest)) :
    l = con ++ rest ∧ countC a con = countC a rep := by
  unfold tryFill2 at h
  by_cases hpref : fillLit2.isPrefixOf l
  case neg => rw [if_neg hpref] at h; exact absurd h (by simp)
  case pos =>
  rw [if_pos hpref] at h
  cases hpt : parseEqTail (l.drop fillLit2.length) with
  | none => rw [hpt] at h; exact absurd h (by simp)
  | some res =>
    obtain ⟨con2, body2, rest2⟩ := res
    rw [hpt] at h
    simp only at h
    injection h with h2
    injection h2 with h1 h2
    injection h2 with h2 h3
    subst h1; subst h2; subst h3
    obtain ⟨hdec, hcnt, _⟩ := parseEqTail_spec a has hae hpt
    constructor
    · conv_lhs => rw [eq_append_drop_of_isPrefixOf hpref, hdec]
      simp only [List.append_assoc]
    · simp only [countC_append]
      rw [hlit, hpre, hcnt, countC_cons, if_neg hparen]
      simp [countC]

/-- The marker character 必 is counted invariantly by both fill
substitutions. -/
theorem countC_marker_fillSub (l : List Char) :
    countC markerChar (fillSub1 l) = countC markerChar l ∧
      countC markerChar (fillSub2 l) = countC markerChar l := by
  constructor
  · exact countC_scanSubF markerChar tryFill1
      (fun l2 con rep rest h =>
        tryFill1_count markerChar (by decide) (by decide) (by decide) (by decide)
          (by decide) (by decide) (by decide) h) l.length l
  · exact countC_scanSubF markerChar tryFill2
      (fun l2 con rep rest h =>
        tryFill2_count markerChar (by decide) (by decide) (by decide) (by decide)
          (by decide) h) l.length l

theorem countC_addImportLine (a : Char) (hnl : ¬('\n' = a))
    {line : List Char} (hline : countC a line = 0) (code : List Char) :
    countC a (addImportLine code line) = countC a code := by
  unfold addImportLine
  split
  · rfl
  · split
    · rw [countC_append, countC_cons, if_neg hnl, countC_append, hline]
      conv_rhs =>
        rw [← List.take_append_drop (importSectionEnd code).toNat code]
      rw [countC_append]
      omega
    · rw [countC_append, hline, countC_cons, if_neg hnl, countC_cons, if_neg hnl]
      omega

theorem countC_addImports (a : Char) (hnl : ¬('\n' = a))
    (hlines : ∀ s ∈ requiredImports, countC a s.data = 0) (code : List Char) :
    countC a (addImports code) = countC a code := by
  unfold addImports
  have main : ∀ (lines : List String), (∀ s ∈ lines, countC a s.data = 0) →
      ∀ acc, countC a (lines.foldl (fun acc line => addImportLine acc line.data) acc) =
        countC a acc := by
    intro lines
    induction lines with
    | nil => intro _ acc; rfl
    | cons s ss ih =>
      intro hs acc
      simp only [List.foldl_cons]
      rw [ih (fun t ht => hs t (by simp [ht])) _,
        countC_addImportLine a hnl (hs s (by simp)) acc]
  exact main requiredImports hlines code

theorem countC_applyLiteralSubs (a : Char)
    (hall : ∀ pr ∈ literalSubs, countC a pr.1 = 0 ∧ countC a pr.2 = 0)
    (code : List Char) :
    countC a (applyLiteralSubs code) = countC a code := by
  unfold applyLiteralSubs
  have main : ∀ (subs : List (List Char × List Char)),
      (∀ pr ∈ subs, countC a pr.1 = 0 ∧ countC a pr.2 = 0) →
      ∀ acc, countC a (subs.foldl (fun acc pr => replaceAll pr.1 pr.2 acc) acc) =
        countC a acc := by
    intro subs
    induction subs with
    | nil => intro _ acc; rfl
    | cons pr prs ih =>
      intro hs acc
      simp only [List.foldl_cons]
      rw [ih (fun t ht => hs t (by simp [ht])) _,
        countC_replaceAll a (hs pr (by simp)).1 (hs pr (by simp)).2 acc]
  exact main literalSubs hall code

set_option maxRecDepth 100000 in
/-- Each sanitizer pass increases the number of 必 characters by exactly
one (the single occurrence inside the prepended helper preamble). -/
theorem countC_marker_sanitizeData (code : List Char) :
    countC markerChar (sanitizeData code) = 1 + countC markerChar code := by
  unfold sanitizeData
  rw [(countC_marker_fillSub _).2, (countC_marker_fillSub _).1]
  rw [countC_applyLiteralSubs markerChar (by decide)]
  rw [countC_append, countC_cons, if_neg (by decide : ¬('\n' = markerChar)),
    countC_cons, if_neg (by decide : ¬('\n' = markerChar))]
  rw [countC_addImports markerChar (by decide) (by decide)]
  have hP : countC markerChar safePlaceholderCode.data = 1 := by
    rw [← countT_eq_countC]
    decide
  omega

theorem sanitize_data (c : String) : (sanitize c).data = sanitizeData c.data := by
  unfold sanitize
  with_reducible rfl

/-- The sanitizer changes every input: each pass prepends the helper
preamble, raising the 必-count by one. -/
theorem sanitize_ne (c : String) : sanitize c ≠ c := by
  intro hEq
  have h1 := countC_marker_sanitizeData c.data
  rw [← sanitize_data, hEq] at h1
  omega

end App

set_option maxRecDepth 100000 in
set_option maxHeartbeats 2000000 in
/-- C4 (counterexample): the sanitizer is neither idempotent nor the
identity on pattern-free code.  The code text `x = 1` contains none of
the fragile patterns, yet `sanitize` changes it, and sanitizing a
second time changes the result again (each pass prepends the helper
preamble and re-inserts imports). -/
theorem C4_counterexample :
    App.fragileFree "x = 1" = true ∧
      App.sanitize "x = 1" ≠ "x = 1" ∧
      App.sanitize (App.sanitize "x = 1") ≠ App.sanitize "x = 1" :=
  ⟨by decide, App.sanitize_ne _, App.sanitize_ne _⟩

/-- C4 (amended): the sanitizer is not idempotent and does not leave
pattern-free code unchanged: every pass unconditionally prepends the
safe-helper preamble (and inserts any missing import lines), so for
every code text `c` (pattern-free or not), `sanitize c ≠ c` and
`sanitize (sanitize c) ≠ sanitize c`. -/
theorem C4_sanitizer_never_identity (c : String) :
    App.sanitize c ≠ c ∧ App.sanitize (App.sanitize c) ≠ App.sanitize c :=
  ⟨App.sanitize_ne c, App.sanitize_ne (App.sanitize c)⟩

namespace PPTXAgent

theorem execFrom_zero (env : StageOracle) (x : GraphNode × State) :
    execFrom env 0 x = x := rfl

theorem execFrom_succ (env : StageOracle) (n : Nat) (x : GraphNode × State) :
    execFrom env (n + 1) x = execFrom env n (step env x) := rfl

theorem execFrom_add (env : StageOracle) (a b : Nat) (x : GraphNode × State) :
    execFrom env (a + b) x = execFrom env b (execFrom env a x) := by
  induction a generalizing x with
  | zero => rw [Nat.zero_add]; rfl
  | succ a ih =>
    rw [show a + 1 + b = (a + b) + 1 by omega]
    rw [show (a + b) + 1 = (a + 1) + b from by omega] at *
    rw [show a + 1 + b = a + b + 1 by omega, execFrom_succ, execFrom_succ, ih]

theorem execFrom_succ_last (env : StageOracle) (n : Nat) (x : GraphNode × State) :
    execFrom env (n + 1) x = step env (execFrom env n x) :=
  execFrom_add env n 1 x

theorem execFrom_end (env : StageOracle) (n : Nat) (s : State) :
    execFrom env n (.END, s) = (.END, s) := by
  induction n with
  | zero => rfl
  | succ m ih => rw [execFrom_succ]; exact ih

theorem execFrom_fst_end (env : StageOracle) (m : Nat) (x : GraphNode × State)
    (h : x.1 = .END) : (execFrom env m x).1 = .END := by
  rcases x with ⟨node, s⟩
  dsimp at h
  subst h
  rw [execFrom_end]

theorem step_story (env : StageOracle) (s : State) :
    step env (.generate_story, s) =
      (.evaluate_story,
       { s with story := env.storyAt s.iteration, iteration := s.iteration + 1 }) := rfl

theorem step_eval (env : StageOracle) (s : State) :
    step env (.evaluate_story, s) =
      (if (env.judgeAt s.iteration).judge = false ∧ s.iteration < 5
         then GraphNode.generate_story else GraphNode.generate_slide_contents,
       { s with current_judge := (env.judgeAt s.iteration).judge,
                judgement_reason := (env.judgeAt s.iteration).reason }) := by
  by_cases hj : (env.judgeAt s.iteration).judge = true
  · simp [step, hj]
  · have hjf : (env.judgeAt s.iteration).judge = false := by
      cases h : (env.judgeAt s.iteration).judge
      · rfl
      · exact absurd h hj
    simp [step, hjf]
    split <;> rfl

theorem contents_reaches_end (env : StageOracle) (s : State) (n : Nat) (h : 2 ≤ n) :
    (execFrom env n (.generate_slide_contents, s)).1 = .END := by
  obtain ⟨m, rfl⟩ : ∃ m, n = 2 + m := ⟨n - 2, by omega⟩
  rw [execFrom_add]
  exact execFrom_fst_end env m _ rfl

theorem reach_end_from_story (env : StageOracle) :
    ∀ (k : Nat) (s : State), (5 : Int) ≤ s.iteration + (k : Int) →
      ∀ n : Nat, 2 * k + 4 ≤ n →
      (execFrom env n (.generate_story, s)).1 = .END := by
  intro k
  induction k with
  | zero =>
    intro s hk n hn
    have hk5 : (5 : Int) ≤ s.iteration := by push_cast at hk; omega
    obtain ⟨m, rfl⟩ : ∃ m, n = 4 + m := ⟨n - 4, by omega⟩
    rw [execFrom_add]
    apply execFrom_fst_end
    rw [execFrom_succ, execFrom_succ, execFrom_succ, execFrom_succ, execFrom_zero,
      step_story, step_eval]
    split
    case isTrue h =>
      exfalso
      have h2 := h.2
      dsimp at h2
      omega
    case isFalse h => rfl
  | succ k ih =>
    intro s hk n hn
    obtain ⟨m, rfl⟩ : ∃ m, n = 2 + m := ⟨n - 2, by omega⟩
    rw [execFrom_add]
    rw [execFrom_succ, execFrom_succ, execFrom_zero, step_story, step_eval]
    split
    case isTrue h =>
      apply ih
      · show (5 : Int) ≤ s.iteration + 1 + (k : Int)
        push_cast at hk
        omega
      · omega
    case isFalse h =>
      exact contents_reaches_end env _ m (by omega)

theorem exec_invariant (env : StageOracle) (req : String) (n : Nat) :
    (0 ≤ (exec env req n).2.iteration ∧ (exec env req n).2.iteration ≤ 5) ∧
      ((exec env req n).1 = .generate_story → (exec env req n).2.iteration ≤ 4) := by
  induction n with
  | zero =>
    refine ⟨⟨by simp [exec, execFrom, initState], by simp [exec, execFrom, initState]⟩, ?_⟩
    intro _
    simp [exec, execFrom, initState]
  | succ m ih =>
    have hlast : exec env req (m + 1) = step env (exec env req m) :=
      execFrom_succ_last env m _
    rw [hlast]
    rcases hx : exec env req m with ⟨node, s⟩
    rw [hx] at ih
    obtain ⟨⟨h0, h5⟩, hs⟩ := ih
    dsimp at h0 h5 hs
    cases node with
    | generate_story =>
      rw [step_story]
      have h4 := hs rfl
      refine ⟨⟨by dsimp; omega, by dsimp; omega⟩, ?_⟩
      intro hcontra
      exact absurd hcontra (by simp)
    | evaluate_story =>
      rw [step_eval]
      split
      case isTrue h =>
        refine ⟨⟨by dsimp; omega, by dsimp; omega⟩, ?_⟩
        intro _
        dsimp
        omega
      case isFalse h =>
        refine ⟨⟨by dsimp; omega, by dsimp; omega⟩, ?_⟩
        intro hcontra
        exact absurd hcontra (by simp)
    | generate_slide_contents =>
      refine ⟨⟨by dsimp [step]; omega, by dsimp [step]; omega⟩, ?_⟩
      intro hcontra
      exact absurd hcontra (by simp [step])
    | generate_pptx_code =>
      refine ⟨⟨by dsimp [step]; omega, by dsimp [step]; omega⟩, ?_⟩
      intro hcontra
      exact absurd hcontra (by simp [step])
    | END =>
      refine ⟨⟨by dsimp [step]; omega, by dsimp [step]; omega⟩, ?_⟩
      intro hcontra
      exact absurd hcontra (by simp [step])

theorem execFrom_no_story (env : StageOracle) :
    ∀ (m : Nat) (x : GraphNode × State),
      (x.1 = .generate_slide_contents ∨ x.1 = .generate_pptx_code ∨ x.1 = .END) →
      ((execFrom env m x).1 = .generate_slide_contents ∨
        (execFrom env m x).1 = .generate_pptx_code ∨ (execFrom env m x).1 = .END) := by
  intro m
  induction m with
  | zero => exact fun x h => h
  | succ t ihm =>
    intro x h
    rw [execFrom_succ]
    apply ihm
    rcases x with ⟨node, s⟩
    rcases h with h | h | h <;> dsimp at h <;> subst h
    · right; left; rfl
    · right; right; rfl
    · right; right; rfl

theorem contents_never_story (env : StageOracle) (m : Nat) (s : State) :
    (execFrom env m (.generate_slide_contents, s)).1 ≠ .generate_story := by
  have h := execFrom_no_story env m (.generate_slide_contents, s) (by left; rfl)
  rcases h with h | h | h <;> rw [h] <;> simp

end PPTXAgent

/-- C1: in every pipeline run the `iteration` counter starts at 0, is
incremented exactly once per `generate_story` node execution and only
there, satisfies `0 ≤ iteration ≤ 5` in every reachable configuration,
and the orchestrator reaches the terminal `END` node after at most 14
transitions regardless of the judgement outcomes. -/
theorem C1_pipeline_invariants (env : PPTXAgent.StageOracle) (req : String) :
    (PPTXAgent.initState req).iteration = 0 ∧
      (∀ s : State,
        (PPTXAgent.step env (.generate_story, s)).2.iteration = s.iteration + 1) ∧
      (∀ (node : PPTXAgent.GraphNode) (s : State), node ≠ .generate_story →
        (PPTXAgent.step env (node, s)).2.iteration = s.iteration) ∧
      (∀ n : Nat, 0 ≤ (PPTXAgent.exec env req n).2.iteration ∧
        (PPTXAgent.exec env req n).2.iteration ≤ 5) ∧
      (∀ n : Nat, 14 ≤ n → (PPTXAgent.exec env req n).1 = .END) := by
  refine ⟨rfl, fun s => rfl, ?_, ?_, ?_⟩
  · intro node s hnode
    cases node with
    | generate_story => exact absurd rfl hnode
    | evaluate_story => rw [PPTXAgent.step_eval]
    | generate_slide_contents => rfl
    | generate_pptx_code => rfl
    | END => rfl
  · intro n
    exact (PPTXAgent.exec_invariant env req n).1
  · intro n hn
    unfold PPTXAgent.exec
    exact PPTXAgent.reach_end_from_story env 5 (PPTXAgent.initState req)
      (by norm_num [PPTXAgent.initState]) n (by omega)

/-- C1 (witness): at a concrete oracle that always rejects, the run
reaches `END` within 14 steps with `iteration ≤ 5`. -/
theorem C1_pipeline_invariants_witness :
    (PPTXAgent.exec
        ⟨fun _ => "story", fun _ => ⟨false, "reason"⟩, fun _ _ => "contents", fun _ => "code"⟩
        "req" 14).1 = .END ∧
      (PPTXAgent.exec
        ⟨fun _ => "story", fun _ => ⟨false, "reason"⟩, fun _ _ => "contents", fun _ => "code"⟩
        "req" 14).2.iteration ≤ 5 := by
  constructor
  · exact (C1_pipeline_invariants _ "req").2.2.2.2 14 (by omega)
  · exact ((C1_pipeline_invariants _ "req").2.2.2.1 14).2

/-- C2: at the `evaluate_story` node the orchestrator loops back to
`generate_story` exactly when the fresh judgement is not accepted and
`iteration < 5`; in every other case it moves to
`generate_slide_contents`, after which the `generate_story` node is
never visited again. -/
theorem C2_evaluate_transition (env : PPTXAgent.StageOracle) (s : State) :
    ((PPTXAgent.step env (.evaluate_story, s)).1 = .generate_story ↔
      ((env.judgeAt s.iteration).judge = false ∧ s.iteration < 5)) ∧
      ((PPTXAgent.step env (.evaluate_story, s)).1 = .generate_story ∨
        (PPTXAgent.step env (.evaluate_story, s)).1 = .generate_slide_contents) ∧
      (∀ (m : Nat) (s2 : State),
        (PPTXAgent.execFrom env m (.generate_slide_contents, s2)).1 ≠ .generate_story) := by
  refine ⟨?_, ?_, PPTXAgent.contents_never_story env⟩
  · rw [PPTXAgent.step_eval]
    split
    case isTrue h => simpa using h
    case isFalse h => simpa using h
  · rw [PPTXAgent.step_eval]
    split
    · left; rfl
    · right; rfl

/-- C2 (witness): with an accepting judgement at iteration 1 the
evaluator advances to `generate_slide_contents`, and two steps later the
run can no longer visit `generate_story`. -/
theorem C2_evaluate_transition_witness :
    (PPTXAgent.step
        ⟨fun _ => "story", fun _ => ⟨true, "ok"⟩, fun _ _ => "contents", fun _ => "code"⟩
        (.evaluate_story, { user_request := "req", iteration := 1 })).1 =
      .generate_slide_contents ∧
      (PPTXAgent.execFrom
        ⟨fun _ => "story", fun _ => ⟨true, "ok"⟩, fun _ _ => "contents", fun _ => "code"⟩
        2 (.generate_slide_contents, { user_request := "req" })).1 ≠ .generate_story := by
  constructor
  · have h := (C2_evaluate_transition
      ⟨fun _ => "story", fun _ => ⟨true, "ok"⟩, fun _ _ => "contents", fun _ => "code"⟩
      { user_request := "req", iteration := 1 }).2.1
    rcases h with h | h
    · exfalso
      have hiff := (C2_evaluate_transition
        ⟨fun _ => "story", fun _ => ⟨true, "ok"⟩, fun _ _ => "contents", fun _ => "code"⟩
        { user_request := "req", iteration := 1 }).1
      have := hiff.mp h
      simp at this
    · exact h
  · exact (C2_evaluate_transition
      ⟨fun _ => "story", fun _ => ⟨true, "ok"⟩, fun _ _ => "contents", fun _ => "code"⟩
      { user_request := "req" }).2.2 2 { user_request := "req" }

/-- C5: the Evaluation stage is total at its interface: when the
underlying chain call raises any exception, `run` returns a judgement
with `judge = false` and the fixed non-empty diagnostic reason rather
than propagating; on success it returns the judgement of the chain. -/
theorem C5_evaluator_total :
    (∀ e : Fault, StoryEvaluator.run (Except.error e) =
      { judge := false, reason := StoryEvaluator.errorReason }) ∧
      StoryEvaluator.errorReason ≠ "" ∧
      (∀ j : Judgement, StoryEvaluator.run (Except.ok j) = j) := by
  refine ⟨fun e => rfl, ?_, fun j => rfl⟩
  decide

/-- C9: `PPTXAgent.run` never raises: on any exception from executing
the compiled graph it returns the fixed non-empty error-presentation
code template, and on success it returns the `slide_gen_code` field of
the final state. -/
theorem C9_agent_run_total :
    (∀ e : Fault, PPTXAgent.run (Except.error e) = PPTXAgent.errorTemplate) ∧
      PPTXAgent.errorTemplate ≠ "" ∧
      (∀ st : State, PPTXAgent.run (Except.ok st) = st.slide_gen_code) := by
  refine ⟨fun e => rfl, ?_, fun st => rfl⟩
  decide

/-- C10: the retry/fallback wrapper restores the per-component `llm`
bindings on every path (success, primary-loop fault, fallback success,
fallback failure): the bindings after `_with_retries_and_fallback`
completes equal the bindings before the call. -/
theorem C10_bindings_restored {α : Type} (cfg : PPTXAgent.Cfg)
    (b0 : PPTXAgent.Bindings) (f : PPTXAgent.Bindings → Nat → Except Fault α) :
    (PPTXAgent.withRetriesAndFallback cfg b0 f).2.1 = b0 := by
  unfold PPTXAgent.withRetriesAndFallback
  cases PPTXAgent.wrapLoop f b0 cfg.max_retries 0 none [] with
  | returned a tr => rfl
  | fell last n tr =>
    dsimp only
    split
    case isTrue h =>
      cases f (PPTXAgent.Bindings.all (cfg.fallback_llm.get h.2)) n with
      | ok a => rfl
      | error e => rfl
    case isFalse h =>
      cases last with
      | some e => rfl
      | none => rfl

/-- C6: on a quota-class fault with no fallback configured, the wrapper
raises exactly that fault after the single failing attempt: no further
retry on the same provider, no silent empty result, and the bindings
are untouched. -/
theorem C6_quota_no_fallback {α : Type} (cfg : PPTXAgent.Cfg)
    (b0 : PPTXAgent.Bindings) (f : PPTXAgent.Bindings → Nat → Except Fault α)
    (e : Fault) (hf : f b0 0 = Except.error e)
    (hq : PPTXAgent.isWrapperQuotaMsg e = true) (hr : 1 ≤ cfg.max_retries)
    (hnofb : cfg.use_fallback = false ∨ cfg.fallback_llm = none) :
    PPTXAgent.withRetriesAndFallback cfg b0 f =
      (.raised e, b0, [⟨b0, 0⟩]) := by
  unfold PPTXAgent.withRetriesAndFallback
  obtain ⟨m, hm⟩ : ∃ m, cfg.max_retries = m + 1 := ⟨cfg.max_retries - 1, by omega⟩
  rw [hm]
  rw [PPTXAgent.wrapLoop]
  rw [hf]
  dsimp only
  rw [if_pos hq]
  dsimp only
  rw [dif_neg (by
    rcases hnofb with h | h
    · intro hc; rw [h] at hc; exact Bool.noConfusion hc.1
    · intro hc; rw [h] at hc; exact Bool.noConfusion hc.2)]
  simp

/-- C6 (witness): at a concrete quota fault with fallback disabled, the
wrapper raises that fault after exactly one attempt. -/
theorem C6_quota_no_fallback_witness :
    PPTXAgent.withRetriesAndFallback (α := String) ⟨false, none, 3⟩
        (PPTXAgent.Bindings.all "gpt-4o")
        (fun _ _ => Except.error ⟨"insufficient_quota"⟩) =
      (.raised ⟨"insufficient_quota"⟩, PPTXAgent.Bindings.all "gpt-4o",
        [⟨PPTXAgent.Bindings.all "gpt-4o", 0⟩]) :=
  C6_quota_no_fallback _ _ _ _ rfl (by decide) (by decide) (Or.inl rfl)

/-- C7: on a quota-class fault with a configured fallback that differs
from the current provider, the wrapper stops retrying the primary at
once, swaps the client of every stage to the fallback, makes exactly one
additional attempt on the fallback, returns its result on success,
raises its fault on failure, and restores the original bindings. -/
theorem C7_quota_fallback_one_attempt {α : Type} (cfg : PPTXAgent.Cfg)
    (llm fb : String) (f : PPTXAgent.Bindings → Nat → Except Fault α) (e : Fault)
    (huse : cfg.use_fallback = true) (hfb : cfg.fallback_llm = some fb)
    (hdiff : fb ≠ llm) (hr : 1 ≤ cfg.max_retries)
    (hf : f (PPTXAgent.Bindings.all llm) 0 = Except.error e)
    (hq : PPTXAgent.isWrapperQuotaMsg e = true) :
    PPTXAgent.withRetriesAndFallback cfg (PPTXAgent.Bindings.all llm) f =
      ((match f (PPTXAgent.Bindings.all fb) 1 with
        | .ok a => PyResult.ok a
        | .error e2 => PyResult.raised e2),
       PPTXAgent.Bindings.all llm,
       [⟨PPTXAgent.Bindings.all llm, 0⟩, ⟨PPTXAgent.Bindings.all fb, 1⟩]) := by
  unfold PPTXAgent.withRetriesAndFallback
  obtain ⟨m, hm⟩ : ∃ m, cfg.max_retries = m + 1 := ⟨cfg.max_retries - 1, by omega⟩
  rw [hm]
  rw [PPTXAgent.wrapLoop]
  rw [hf]
  dsimp only
  rw [if_pos hq]
  dsimp only
  rw [dif_pos ⟨huse, by rw [hfb]; rfl⟩]
  have hget : cfg.fallback_llm.get (by rw [hfb]; rfl) = fb := by
    simp [hfb]
  rw [hget]
  cases hres : f (PPTXAgent.Bindings.all fb) 1 with
  | ok a => rfl
  | error e2 => rfl

/-- C7 (witness): with primary `gpt-4o` and configured fallback
`gpt-3.5-turbo` (as built by `__init__`), a quota fault leads to exactly
one fallback attempt whose failure is raised, with bindings restored. -/
theorem C7_quota_fallback_one_attempt_witness :
    PPTXAgent.withRetriesAndFallback (α := String)
        (PPTXAgent.init "gpt-4o" true 3).1 (PPTXAgent.init "gpt-4o" true 3).2
        (fun _ _ => Except.error ⟨"rate_limit"⟩) =
      (.raised ⟨"rate_limit"⟩, PPTXAgent.Bindings.all "gpt-4o",
        [⟨PPTXAgent.Bindings.all "gpt-4o", 0⟩,
         ⟨PPTXAgent.Bindings.all "gpt-3.5-turbo", 1⟩]) :=
  C7_quota_fallback_one_attempt _ "gpt-4o" "gpt-3.5-turbo" _ _
    (by decide) (by decide) (by decide) (by decide) rfl (by decide)

/-- C3 (counterexample): a tier-1 exception that is not a placeholder
`KeyError` does not cascade.  Here tier 1 fails with a generic
exception while tier 3 would succeed, yet neither tier 2 nor tier 3
runs and no artifact is produced — contradicting the claim that any
tier-1 exception proceeds to tier 2 or tier 3. -/
theorem C3_counterexample :
    App.runCascade
        ⟨Except.error (App.PyExc.otherExc "boom"), true, Except.ok (), Except.ok ()⟩ =
      ⟨false, false, false⟩ := rfl

/-- C3 (amended): the cascade runs tier 2 and tier 3 only when tier 1
raises a `KeyError` whose text contains "no placeholder on this slide
with idx"; in that case a missing artifact implies the attempted final
tier (tier 3) itself failed.  For any other tier-1 exception the run is
caught and ends with no artifact and no further tier. -/
theorem C3_cascade_amended (env : App.CascadeEnv) (e : App.PyExc)
    (h : env.tier1 = Except.error e) :
    (App.isPlaceholderKeyError e = true →
      ((App.runCascade env).ranTier2 = true ∨ (App.runCascade env).ranTier3 = true) ∧
        ((App.runCascade env).generationSuccessful = false →
          (App.runCascade env).ranTier3 = true ∧
            ∃ m, env.tier3 = Except.error m)) ∧
      (App.isPlaceholderKeyError e = false →
        App.runCascade env = ⟨false, false, false⟩) := by
  rcases env with ⟨t1, safeExists, t2, t3⟩
  dsimp at h
  subst h
  cases e with
  | keyError msg =>
    simp only [App.isPlaceholderKeyError, App.runCascade]
    cases hc : containsSub App.placeholderKeyErrorMarker.data msg.data with
    | true =>
      simp only [if_pos rfl]
      refine ⟨fun _ => ?_, fun hfalse => Bool.noConfusion hfalse⟩
      cases safeExists with
      | true =>
        cases t2 with
        | ok u =>
          exact ⟨Or.inl rfl, fun hsf => Bool.noConfusion hsf⟩
        | error e2 =>
          cases t3 with
          | ok u => exact ⟨Or.inl rfl, fun hsf => Bool.noConfusion hsf⟩
          | error m => exact ⟨Or.inl rfl, fun _ => ⟨rfl, m, rfl⟩⟩
      | false =>
        cases t3 with
        | ok u => exact ⟨Or.inr rfl, fun hsf => Bool.noConfusion hsf⟩
        | error m => exact ⟨Or.inr rfl, fun _ => ⟨rfl, m, rfl⟩⟩
    | false =>
      constructor
      · intro htrue; exact absurd htrue (by simp)
      · intro _; simp
  | otherExc msg =>
    exact ⟨fun htrue => Bool.noConfusion htrue, fun _ => rfl⟩

/-- C3 (witness): a placeholder `KeyError` with no sanitized file on
disk runs tier 3 directly. -/
theorem C3_cascade_amended_witness :
    ((App.runCascade
        ⟨Except.error (App.PyExc.keyError "no placeholder on this slide with idx 10"),
          false, Except.ok (), Except.ok ()⟩).ranTier2 = true ∨
      (App.runCascade
        ⟨Except.error (App.PyExc.keyError "no placeholder on this slide with idx 10"),
          false, Except.ok (), Except.ok ()⟩).ranTier3 = true) :=
  ((C3_cascade_amended
      ⟨Except.error (App.PyExc.keyError "no placeholder on this slide with idx 10"),
        false, Except.ok (), Except.ok ()⟩ _ rfl).1 (by decide)).1

/-- The shared generator retry loop returns the fixed per-stage fallback
text when every attempt up to the limit raises a fault that is neither
quota-class nor rate-limit-style. -/
theorem genLoop_other_returns_fallback (att : Nat → Except Fault String)
    (maxR : Nat) (fb : String) :
    ∀ (fuel i : Nat) (last : Option Fault), i + fuel = maxR + 1 → i ≤ maxR →
      (∀ j, i ≤ j → j ≤ maxR → ∃ e, att j = Except.error e ∧
        isGeneratorQuotaMsg (pyLower e.msg.data) = false ∧
        isRateLimitMsg (pyLower e.msg.data) = false) →
      genLoop att maxR fb fuel i last = .ok fb := by
  intro fuel
  induction fuel with
  | zero => intro i last hsum hle _; omega
  | succ t ih =>
    intro i last hsum hle h
    obtain ⟨e, he, hq, hrl⟩ := h i (Nat.le_refl i) hle
    rw [genLoop, he]
    dsimp only
    rw [if_neg (by rw [hq]; exact Bool.noConfusion),
      if_neg (by rw [hrl]; exact Bool.noConfusion)]
    by_cases hm : i = maxR
    · rw [if_pos (by simp [hm])]
    · rw [if_neg (by simp [hm])]
      exact ih (i + 1) (some e) (by omega) (by omega)
        (fun j hj1 hj2 => h j (by omega) hj2)

/-- C8 (counterexample): a rate-limit-style transient fault (message
containing "rate" and "limit" but none of the quota markers) raised on
every attempt makes `StoryGenerator.run` re-raise the last fault
instead of returning the placeholder outline — the `continue` on the
final attempt skips the fallback return. -/
theorem C8_counterexample :
    StoryGenerator.run 2 (fun _ => Except.error ⟨"rate limit hit"⟩) =
      .raised ⟨"rate limit hit"⟩ := by decide

/-- C8 (amended): when every attempt up to the retry limit raises an
Other-class fault (neither quota-class nor rate-limit-style), each
retry-limited stage returns its deterministic placeholder output
instead of propagating — the story generator its generic outline, the
slide-contents generator its slide outline (an f-string of the user
request), and the code generator its fallback code; rate-limit-style
transient faults are instead retried with backoff and then re-raised. -/
theorem C8_other_faults_placeholder (maxR : Nat) (req : String)
    (att : Nat → Except Fault String)
    (h : ∀ j, j ≤ maxR → ∃ e, att j = Except.error e ∧
      isGeneratorQuotaMsg (pyLower e.msg.data) = false ∧
      isRateLimitMsg (pyLower e.msg.data) = false) :
    StoryGenerator.run maxR att = .ok StoryGenerator.fallbackText ∧
      SlideContentsGenerator.run maxR req att =
        .ok (SlideContentsGenerator.fallbackText req) ∧
      PPTXCodeGenerator.run maxR att = .ok PPTXCodeGenerator.fallbackText := by
  refine ⟨?_, ?_, ?_⟩ <;>
    exact genLoop_other_returns_fallback att maxR _ (maxR + 1) 0 none
      (by omega) (by omega) (fun j _ => h j)

/-- C8 (witness): with a generic fault on every attempt, all three
stages return their placeholder outputs. -/
theorem C8_other_faults_placeholder_witness :
    StoryGenerator.run 2 (fun _ => Except.error ⟨"boom"⟩) =
        .ok StoryGenerator.fallbackText ∧
      SlideContentsGenerator.run 2 "req" (fun _ => Except.error ⟨"boom"⟩) =
        .ok (SlideContentsGenerator.fallbackText "req") ∧
      PPTXCodeGenerator.run 2 (fun _ => Except.error ⟨"boom"⟩) =
        .ok PPTXCodeGenerator.fallbackText :=
  C8_other_faults_placeholder 2 "req" _
    (fun j _ => ⟨⟨"boom"⟩, rfl, by decide, by decide⟩)

/-- C4 (witness): the amended statement at the concrete input. -/
theorem C4_sanitizer_never_identity_witness :
    App.sanitize "y = 2" ≠ "y = 2" ∧
      App.sanitize (App.sanitize "y = 2") ≠ App.sanitize "y = 2" :=
  C4_sanitizer_never_identity "y = 2"

/-- C5 (witness): the evaluator behaviour at a concrete fault. -/
theorem C5_evaluator_total_witness :
    StoryEvaluator.run (Except.error ⟨"boom"⟩) =
        { judge := false, reason := StoryEvaluator.errorReason } ∧
      StoryEvaluator.errorReason ≠ "" :=
  ⟨C5_evaluator_total.1 ⟨"boom"⟩, C5_evaluator_total.2.1⟩

/-- C9 (witness): the agent returns the fixed template at a concrete
graph fault. -/
theorem C9_agent_run_total_witness :
    PPTXAgent.run (Except.error ⟨"graph failed"⟩) = PPTXAgent.errorTemplate ∧
      PPTXAgent.errorTemplate ≠ "" :=
  ⟨C9_agent_run_total.1 ⟨"graph failed"⟩, C9_agent_run_total.2.1⟩

/-- C10 (witness): the bindings after a run through the failing
fallback path equal the original bindings. -/
theorem C10_bindings_restored_witness :
    (PPTXAgent.withRetriesAndFallback (α := String) ⟨true, some "gpt-3.5-turbo", 1⟩
        (PPTXAgent.Bindings.all "gpt-4o")
        (fun _ _ => Except.error ⟨"insufficient_quota"⟩)).2.1 =
      PPTXAgent.Bindings.all "gpt-4o" :=
  C10_bindings_restored _ _ _

end PPTX
